import Mathlib

/-!
Verification of the delimiter-balance diagnostic script
(`src/pages/generated/debug_script.py`).

The script has two pieces of algorithmic content:

* `remove_comments_and_strings` — a character-classifying state machine
  that masks string-literal and comment payload with spaces;
* `check_balance` — a stack-based delimiter matcher producing one
  diagnostic per scan.

Text is modelled as `List Char` (Python iterates a `str` character by
character).  The Python `while` loop of the classifier advances its index
by 1 or 2 per iteration; it is embedded as a step function plus a
fuel-indexed loop, with fuel `text.length` (each iteration strictly
increases the index, so this fuel is always sufficient).
-/

/-- The quote characters of the source, written via code points so the
source text of this file stays plain ASCII-safe: `'` (39), `"` (34),
a backquote (96), and the braces `{` (123) and `}` (125). -/
def squote : Char := Char.ofNat 39

def dquote : Char := Char.ofNat 34

def backquote : Char := Char.ofNat 96

def lbrace : Char := Char.ofNat 123

def rbrace : Char := Char.ofNat 125

/-- Python-style indexing `s[k]`: a negative index counts from the end
(`s[-1]` is the last character).  An out-of-range access (a Python
`IndexError`) is modelled by the default `' '`; no execution we reason
about reaches that case. -/
def pyGet (s : List Char) (k : Int) : Char :=
  if k < 0 then s.getD (s.length + k).toNat ' ' else s.getD k.toNat ' '

/-- State of the classifier loop of `remove_comments_and_strings`:
`in_string`, `string_char`, `in_comment` (line comment, `//`) and
`in_block_comment`.  Python initialises `string_char` to the empty
string, which compares unequal to every character; this is modelled by
`Option Char` with initial value `none`. -/
structure RcsState where
  in_string : Bool
  string_char : Option Char
  in_comment : Bool
  in_block_comment : Bool
  deriving DecidableEq

/-- One iteration of the `while i < length` body of
`remove_comments_and_strings`: given the full text, the index `i` and the
state, return the characters appended to `output`, the new state, and the
new index (`i+1`, or `i+2` for the two-character tokens).  Mirrors the
source branch for branch; `text[i-1]` is the Python lookbehind, hence
`pyGet`. -/
def rcsStep (text : List Char) (i : Nat) (st : RcsState) :
    List Char × RcsState × Nat :=
  let char := text.getD i ' '
  if st.in_string then
    ([' '],
      if some char = st.string_char then
        if pyGet text ((i : Int) - 1) ≠ '\\' then
          { st with in_string := false }
        else st
      else st,
      i + 1)
  else if st.in_comment then
    if char = '\n' then ([char], { st with in_comment := false }, i + 1)
    else ([' '], st, i + 1)
  else if st.in_block_comment then
    if char = '*' ∧ i + 1 < text.length ∧ text.getD (i + 1) ' ' = '/' then
      ([' ', ' '], { st with in_block_comment := false }, i + 2)
    else ([' '], st, i + 1)
  else
    if char = dquote ∨ char = squote ∨ char = backquote then
      ([' '], { st with in_string := true, string_char := some char }, i + 1)
    else if char = '/' ∧ i + 1 < text.length ∧ text.getD (i + 1) ' ' = '/' then
      ([' ', ' '], { st with in_comment := true }, i + 2)
    else if char = '/' ∧ i + 1 < text.length ∧ text.getD (i + 1) ' ' = '*' then
      ([' ', ' '], { st with in_block_comment := true }, i + 2)
    else ([char], st, i + 1)

/-- The `while i < length` loop of `remove_comments_and_strings`,
fuel-indexed so that it is structurally recursive and computable by the
kernel.  Fuel `text.length - i` always suffices because every step
advances `i` by at least one. -/
def rcsLoop (text : List Char) : Nat → Nat → RcsState → List Char
  | 0, _, _ => []
  | fuel + 1, i, st =>
    if i < text.length then
      (rcsStep text i st).1 ++
        rcsLoop text fuel (rcsStep text i st).2.2 (rcsStep text i st).2.1
    else []

/-- `remove_comments_and_strings(text)`: run the classifier loop from
index 0 in code mode (`in_string = in_comment = in_block_comment =
False`, `string_char = ''`). -/
def remove_comments_and_strings (text : List Char) : List Char :=
  rcsLoop text text.length 0 ⟨false, none, false, false⟩

/-- The `pairs` dict of the script:
`pairs = \x7b ')': '(', '\x7d': '\x7b', ']': '[', '>': '<' \x7d`;
`none` models a key absent from the dict (a lookup of such a key would
raise `KeyError`, but the script only looks up the three characters of
its closer test). -/
def pairs (c : Char) : Option Char :=
  if c = ')' then some '('
  else if c = rbrace then some lbrace
  else if c = ']' then some '['
  else if c = '>' then some '<'
  else none

/-- Result of one `check_balance` scan.  The script returns formatted
strings; each variant records exactly the data interpolated into the
corresponding f-string.  `unmatchedClosing` also carries the character
offset (the script prints `char \x7bi\x7d`). -/
inductive Diagnostic where
  | balanced : Diagnostic
  | unmatchedClosing (character : Char) (line : Nat) (charIndex : Nat) :
      Diagnostic
  | mismatchedClosing (character : Char) (line : Nat) (expectedOpener : Char)
      (openerIndex : Nat) : Diagnostic
  | unclosedOpening (character : Char) (line : Nat) : Diagnostic
  deriving DecidableEq

/-- `text[:i].count('\n') + 1`: the 1-based line number of offset `i`. -/
def lineIndex (text : List Char) (i : Nat) : Nat :=
  (text.take i).count '\n' + 1

/-- The `for i, char in enumerate(text)` loop of `check_balance`, walking
the remaining characters with `i` the offset of the head of `rest` in
`text`.  The stack grows at the head of the list, so the list head is
Python's `stack[-1]` (the most recently pushed frame) and `stack.pop()`
removes it.  After the loop, on a non-empty stack the script reads
`stack[-1]` — the head here. -/
def checkBalanceLoop (text : List Char) :
    List Char → Nat → List (Char × Nat) → Diagnostic
  | [], _, stack =>
    match stack with
    | [] => .balanced
    | (lastOpen, idx) :: _ => .unclosedOpening lastOpen (lineIndex text idx)
  | char :: rest, i, stack =>
    if char = '(' ∨ char = lbrace ∨ char = '[' then
      checkBalanceLoop text rest (i + 1) ((char, i) :: stack)
    else if char = ')' ∨ char = rbrace ∨ char = ']' then
      match stack with
      | [] => .unmatchedClosing char (lineIndex text i) i
      | (lastOpen, idx) :: stackRest =>
        if pairs char ≠ some lastOpen then
          .mismatchedClosing char (lineIndex text i) lastOpen idx
        else checkBalanceLoop text rest (i + 1) stackRest
    else checkBalanceLoop text rest (i + 1) stack

/-- `check_balance(text)`: scan the whole text with an empty stack. -/
def check_balance (text : List Char) : Diagnostic :=
  checkBalanceLoop text text 0 []

/-- Variant of `rcsStep` whose string-terminator lookbehind reads offset
`i - 1` directly (natural subtraction, no Python wraparound to the end of
the text).  Used to state that the script's `text[i-1]` lookbehind never
actually wraps: `remove_comments_and_strings` agrees with the
no-wraparound reading on every input. -/
def rcsStepSafe (text : List Char) (i : Nat) (st : RcsState) :
    List Char × RcsState × Nat :=
  let char := text.getD i ' '
  if st.in_string then
    ([' '],
      if some char = st.string_char then
        if text.getD (i - 1) ' ' ≠ '\\' then
          { st with in_string := false }
        else st
      else st,
      i + 1)
  else if st.in_comment then
    if char = '\n' then ([char], { st with in_comment := false }, i + 1)
    else ([' '], st, i + 1)
  else if st.in_block_comment then
    if char = '*' ∧ i + 1 < text.length ∧ text.getD (i + 1) ' ' = '/' then
      ([' ', ' '], { st with in_block_comment := false }, i + 2)
    else ([' '], st, i + 1)
  else
    if char = dquote ∨ char = squote ∨ char = backquote then
      ([' '], { st with in_string := true, string_char := some char }, i + 1)
    else if char = '/' ∧ i + 1 < text.length ∧ text.getD (i + 1) ' ' = '/' then
      ([' ', ' '], { st with in_comment := true }, i + 2)
    else if char = '/' ∧ i + 1 < text.length ∧ text.getD (i + 1) ' ' = '*' then
      ([' ', ' '], { st with in_block_comment := true }, i + 2)
    else ([char], st, i + 1)

/-- The classifier loop over `rcsStepSafe`. -/
def rcsLoopSafe (text : List Char) : Nat → Nat → RcsState → List Char
  | 0, _, _ => []
  | fuel + 1, i, st =>
    if i < text.length then
      (rcsStepSafe text i st).1 ++
        rcsLoopSafe text fuel (rcsStepSafe text i st).2.2
          (rcsStepSafe text i st).2.1
    else []

/-- `remove_comments_and_strings` with the no-wraparound lookbehind. -/
def remove_comments_and_strings_noWrap (text : List Char) : List Char :=
  rcsLoopSafe text text.length 0 ⟨false, none, false, false⟩

/-! ### Basic facts about one classifier step -/

/-- Each step consumes as many characters as it emits: the emitted block
has length `i' - i`, the index strictly increases, and never runs past
the end of the text. -/
theorem rcsStep_spec (text : List Char) (i : Nat) (st : RcsState)
    (h : i < text.length) :
    (rcsStep text i st).1.length + i = (rcsStep text i st).2.2 ∧
      i < (rcsStep text i st).2.2 ∧
      (rcsStep text i st).2.2 ≤ text.length := by
  unfold rcsStep
  dsimp only
  split_ifs <;> simp
  all_goals omega

/-- Every character a step emits is either a space or the input character
at the corresponding offset. -/
theorem rcsStep_emit (text : List Char) (i : Nat) (st : RcsState)
    (j : Nat) :
    (rcsStep text i st).1.getD j ' ' = ' ' ∨
      (rcsStep text i st).1.getD j ' ' = text.getD (i + j) ' ' := by
  unfold rcsStep
  dsimp only
  split_ifs
  all_goals rcases j with _ | _ | n <;> simp [List.getD]

/-- With sufficient fuel the classifier loop emits exactly one character
per remaining input character. -/
theorem rcsLoop_length (text : List Char) :
    ∀ (fuel i : Nat) (st : RcsState), text.length - i ≤ fuel →
      (rcsLoop text fuel i st).length = text.length - i := by
  intro fuel
  induction fuel with
  | zero =>
    intro i st h
    simp only [rcsLoop, List.length_nil]
    omega
  | succ fuel ih =>
    intro i st h
    rw [rcsLoop]
    by_cases hi : i < text.length
    · rw [if_pos hi]
      obtain ⟨h1, h2, h3⟩ := rcsStep_spec text i st hi
      rw [List.length_append, ih _ _ (by omega)]
      omega
    · rw [if_neg hi]
      simp only [List.length_nil]
      omega

/-- With sufficient fuel, every character the classifier loop produces is
either a space or the input character at the corresponding offset. -/
theorem rcsLoop_getD (text : List Char) :
    ∀ (fuel i : Nat) (st : RcsState) (j : Nat), text.length - i ≤ fuel →
      ((rcsLoop text fuel i st).getD j ' ' = ' ' ∨
        (rcsLoop text fuel i st).getD j ' ' = text.getD (i + j) ' ') := by
  intro fuel
  induction fuel with
  | zero =>
    intro i st j h
    left
    simp [rcsLoop, List.getD]
  | succ fuel ih =>
    intro i st j h
    rw [rcsLoop]
    by_cases hi : i < text.length
    · rw [if_pos hi]
      obtain ⟨h1, h2, h3⟩ := rcsStep_spec text i st hi
      by_cases hj : j < (rcsStep text i st).1.length
      · rw [List.getD_append _ _ _ _ hj]
        exact rcsStep_emit text i st j
      · rw [List.getD_append_right _ _ _ _ (by omega)]
        rcases ih (rcsStep text i st).2.2 (rcsStep text i st).2.1
            (j - (rcsStep text i st).1.length) (by omega) with h' | h'
        · left
          exact h'
        · right
          rw [h']
          congr 1
          omega
    · rw [if_neg hi]
      left
      simp [List.getD]

/-- The Python lookbehind `text[i-1]` agrees with the no-wraparound read
whenever the classifier is in string mode only at positive indices. -/
theorem rcsStep_eq_safe (text : List Char) (i : Nat) (st : RcsState)
    (h : st.in_string = true → 1 ≤ i) :
    rcsStep text i st = rcsStepSafe text i st := by
  unfold rcsStep rcsStepSafe
  dsimp only
  by_cases hs : st.in_string = true
  · rw [if_pos hs, if_pos hs]
    have hi : 1 ≤ i := h hs
    have hpy : pyGet text ((i : Int) - 1) = text.getD (i - 1) ' ' := by
      unfold pyGet
      rw [if_neg (by omega)]
      congr 1
      omega
    rw [hpy]
  · rw [if_neg hs, if_neg hs]

/-- The classifier loop agrees with its no-wraparound variant from any
configuration in which string mode implies a positive index. -/
theorem rcsLoop_eq_safe (text : List Char) :
    ∀ (fuel i : Nat) (st : RcsState), (st.in_string = true → 1 ≤ i) →
      rcsLoop text fuel i st = rcsLoopSafe text fuel i st := by
  intro fuel
  induction fuel with
  | zero =>
    intro i st h
    rfl
  | succ fuel ih =>
    intro i st h
    rw [rcsLoop, rcsLoopSafe]
    by_cases hi : i < text.length
    · rw [if_pos hi, if_pos hi, rcsStep_eq_safe text i st h]
      have hlt : i < (rcsStepSafe text i st).2.2 := by
        rw [← rcsStep_eq_safe text i st h]
        exact (rcsStep_spec text i st hi).2.1
      exact congrArg (fun l => (rcsStepSafe text i st).1 ++ l)
        (ih _ _ (fun _ => by omega))
    · rw [if_neg hi, if_neg hi]

/-- Any text consisting only of angle brackets leaves the stack of the
matcher untouched: neither the opener test `char in '(\x7b['` nor the
closer test `char in ')\x7d]'` matches `<` or `>`. -/
theorem checkBalanceLoop_angle (text : List Char) :
    ∀ (s : List Char) (i : Nat), (∀ c ∈ s, c = '<' ∨ c = '>') →
      checkBalanceLoop text s i [] = .balanced := by
  intro s
  induction s with
  | nil =>
    intro i h
    rfl
  | cons c rest ih =>
    intro i h
    have hc := h c (List.mem_cons_self c rest)
    have h1 : ¬(c = '(' ∨ c = lbrace ∨ c = '[') := by
      rcases hc with hc | hc <;> subst hc <;> decide
    have h2 : ¬(c = ')' ∨ c = rbrace ∨ c = ']') := by
      rcases hc with hc | hc <;> subst hc <;> decide
    simp only [checkBalanceLoop]
    rw [if_neg h1, if_neg h2]
    exact ih (i + 1) (fun d hd => h d (List.mem_cons_of_mem c hd))

-- Sanity checks against the spec's concrete scenarios (scenario inputs
-- written as explicit character lists).
example :
    check_balance
      ['f', 'u', 'n', 'c', '(', ')', ' ', lbrace, ' ', '[', '1', ']', ' ',
        rbrace] = .balanced := by decide

example : check_balance ['(', ']'] = .mismatchedClosing ']' 1 '(' 0 := by
  decide

example :
    remove_comments_and_strings ['(', dquote, rbrace, dquote, ')'] =
      ['(', ' ', ' ', ' ', ')'] := by decide

/-! ### Claims -/

/-- Claim C1, counterexample.  The script's scan applies `check_balance`
to the raw text (the call to `remove_comments_and_strings` is commented
out in the source), so a delimiter inside a comment does affect the
stack: on the spec's scenario-4 input `"\x7b // \x7d\n\x7d"` the comment's
`\x7d` pops the opening `\x7b` and the final `\x7d` is then reported as an
unmatched closing at line 2, not `Balanced` as the claim states. -/
theorem c1_counterexample :
    check_balance [lbrace, ' ', '/', '/', ' ', rbrace, '\n', rbrace] =
        .unmatchedClosing rbrace 2 7 ∧
      Diagnostic.unmatchedClosing rbrace 2 7 ≠ .balanced := by
  decide

/-- Claim C1, amended.  The masking property holds of the composed
pipeline `check_balance (remove_comments_and_strings text)`: every
character the classifier changes becomes a space — hence cannot affect
the delimiter stack — and the composed pipeline reports `Balanced` on the
spec's masking examples `"\x7b // \x7d\n\x7d"`, `("\x7d")` and
`/* \x7d */`.  The script as written, however, runs `check_balance` on
the raw text, where such occurrences do affect the stack (see the
counterexample). -/
theorem c1_theorem :
    (∀ (text : List Char) (j : Nat),
        (remove_comments_and_strings text).getD j ' ' ≠ text.getD j ' ' →
          (remove_comments_and_strings text).getD j ' ' = ' ') ∧
      check_balance
          (remove_comments_and_strings
            [lbrace, ' ', '/', '/', ' ', rbrace, '\n', rbrace]) =
        .balanced ∧
      check_balance
          (remove_comments_and_strings ['(', dquote, rbrace, dquote, ')']) =
        .balanced ∧
      check_balance
          (remove_comments_and_strings
            ['/', '*', ' ', rbrace, ' ', '*', '/']) =
        .balanced := by
  refine ⟨?_, by decide, by decide, by decide⟩
  intro text j hne
  rcases rcsLoop_getD text text.length 0 ⟨false, none, false, false⟩ j
      (by omega) with h | h
  · exact h
  · rw [Nat.zero_add] at h
    exact absurd h hne

/-- Claim C1, witness for the amended theorem: in the input `"\x7b"` the
brace at offset 1 lies inside a string literal and is masked to a
space. -/
theorem c1_witness :
    (remove_comments_and_strings [dquote, lbrace, dquote]).getD 1 ' ' = ' ' :=
  c1_theorem.1 [dquote, lbrace, dquote] 1 (by decide)

/-- Claim C2, counterexample.  `check_balance` tests only `'(\x7b['` and
`')\x7d]'`, so an unmatched `<` produces `Balanced`, not the
non-`Balanced` diagnostic the claim requires. -/
theorem c2_counterexample :
    check_balance ['<'] = .balanced ∧
      ∀ line : Nat, Diagnostic.balanced ≠ .unclosedOpening '<' line := by
  constructor
  · decide
  · intro line
    exact fun h => Diagnostic.noConfusion h

/-- Claim C2, amended.  Angle brackets are not structural for the
matcher: `<` is never pushed and `>` is never checked, so any text made
of angle brackets alone scans as `Balanced`.  (The `pairs` dict does
contain the entry `'>': '<'`, but the scan never looks it up.) -/
theorem c2_theorem (s : List Char) (h : ∀ c ∈ s, c = '<' ∨ c = '>') :
    check_balance s = .balanced :=
  checkBalanceLoop_angle s s 0 h

/-- Claim C2, witness: the unbalanced angle-bracket text `<>><` scans as
`Balanced`. -/
theorem c2_witness : check_balance ['<', '>', '>', '<'] = .balanced :=
  c2_theorem ['<', '>', '>', '<'] (by decide)

/-- Claim C3, counterexample.  On `"(\n["` the scan ends with two open
frames; the script reads `stack[-1]` — the top-most (most recently
pushed) frame — and reports `Unclosed '[' at line 2`, not the bottom-most
frame `'('` at line 1 that the claim requires. -/
theorem c3_counterexample :
    check_balance ['(', '\n', '['] = .unclosedOpening '[' 2 ∧
      Diagnostic.unclosedOpening '[' 2 ≠ .unclosedOpening '(' 1 := by
  decide

/-- Claim C3, amended.  When the scan reaches end of text with no
closing-delimiter failure and a non-empty stack, the diagnostic is
`UnclosedOpening` built from the *top-most* still-open frame (the most
recently opened, innermost unclosed delimiter): its character and the
1-based line number of its position. -/
theorem c3_theorem :
    (∀ (text : List Char) (i : Nat) (c : Char) (idx : Nat)
        (stack : List (Char × Nat)),
        checkBalanceLoop text [] i ((c, idx) :: stack) =
          .unclosedOpening c ((text.take idx).count '\n' + 1)) ∧
      check_balance ['(', '\n', '['] = .unclosedOpening '[' 2 := by
  constructor
  · intro text i c idx stack
    rfl
  · decide

/-- Claim C4, counterexample.  A newline inside a block comment is
replaced by a space: `remove_comments_and_strings "/*\n*/"` is five
spaces, so the output does not have a newline at position 2 although the
input does (the same happens to newlines inside string literals). -/
theorem c4_counterexample :
    remove_comments_and_strings ['/', '*', '\n', '*', '/'] =
        [' ', ' ', ' ', ' ', ' '] ∧
      ['/', '*', '\n', '*', '/'].getD 2 ' ' = '\n' ∧
      ([' ', ' ', ' ', ' ', ' '] : List Char).getD 2 ' ' ≠ '\n' := by
  decide

/-- Claim C4, amended.  The output of `remove_comments_and_strings`
always has the same length as the input, and every newline of the output
is a newline of the input at the same position — but not conversely:
newlines inside block comments and string literals are replaced by
spaces, so newline counts on the masked text may be smaller than on the
raw text (a newline in code or ending a line comment is preserved). -/
theorem c4_theorem (text : List Char) :
    (remove_comments_and_strings text).length = text.length ∧
      ∀ j : Nat, (remove_comments_and_strings text).getD j ' ' = '\n' →
        text.getD j ' ' = '\n' := by
  constructor
  · unfold remove_comments_and_strings
    rw [rcsLoop_length text text.length 0 _ (by omega)]
    omega
  · intro j h
    rcases rcsLoop_getD text text.length 0 ⟨false, none, false, false⟩ j
        (by omega) with h' | h'
    · exact absurd (h'.symm.trans h) (by decide)
    · rw [Nat.zero_add] at h'
      exact h'.symm.trans h

/-- Claim C4, witness: on `"a\n"` the masked output has length 2, and
its newline at position 1 is a newline of the input. -/
theorem c4_witness :
    (remove_comments_and_strings ['a', '\n']).length = 2 ∧
      ['a', '\n'].getD 1 ' ' = '\n' := by
  have h := c4_theorem ['a', '\n']
  exact ⟨h.1, h.2 1 (by decide)⟩

/-- Claim C5, counterexample.  The claim's closer mapping includes
`>` → `<`, but `check_balance` never treats `>` as a closing delimiter:
on `"(>"` the `>` is scanned with the non-empty stack `[('(', 0)]` and,
were it a closer, the popped `'('` would mismatch the expected `'<'`;
instead the scan ignores it and ends with `Unclosed '(' at line 1`
rather than the claimed `MismatchedClosing`. -/
theorem c5_counterexample :
    check_balance ['(', '>'] = .unclosedOpening '(' 1 ∧
      Diagnostic.unclosedOpening '(' 1 ≠ .mismatchedClosing '>' 1 '(' 0 := by
  decide

/-- Claim C5, amended.  For the three closers the script recognises
(`)` → `(`, `\x7d` → `\x7b`, `]` → `[`): when such a closer is scanned
with a non-empty stack whose top frame is not its expected opener, the
scan stops immediately with `MismatchedClosing` carrying the closer, the
1-based line number of its offset, the popped frame's character and the
popped frame's position.  `>` is not treated as a closing delimiter at
all. -/
theorem c5_theorem (text rest : List Char) (i idx : Nat) (c o : Char)
    (stack : List (Char × Nat)) (h : c = ')' ∨ c = rbrace ∨ c = ']')
    (hp : pairs c ≠ some o) :
    checkBalanceLoop text (c :: rest) i ((o, idx) :: stack) =
      .mismatchedClosing c ((text.take i).count '\n' + 1) o idx := by
  have hop : ¬(c = '(' ∨ c = lbrace ∨ c = '[') := by
    rcases h with h | h | h <;> subst h <;> decide
  simp only [checkBalanceLoop, lineIndex]
  rw [if_neg hop, if_pos h]
  rw [if_pos hp]

/-- Claim C5, witness: on `"(]"` the closer `]` at offset 1 meets the
popped frame `('(', 0)` and the scan reports the mismatch. -/
theorem c5_witness :
    checkBalanceLoop ['(', ']'] [']'] 1 [('(', 0)] =
      .mismatchedClosing ']' 1 '(' 0 :=
  c5_theorem ['(', ']'] [] 1 0 ']' '(' [] (Or.inr (Or.inr rfl)) (by decide)

/-- Claim C6, counterexample.  The claim covers every closing delimiter
of the four-pair mapping, but `>` scanned on an empty stack is simply
ignored: `check_balance ">"` is `Balanced`, not the claimed
`UnmatchedClosing`. -/
theorem c6_counterexample :
    check_balance ['>'] = .balanced ∧
      Diagnostic.balanced ≠ .unmatchedClosing '>' 1 0 := by
  decide

/-- Claim C6, amended.  For the three closers the script recognises
(`)`, `\x7d`, `]`): scanned while the stack is empty, the scan stops
immediately and returns `UnmatchedClosing` carrying the character, the
1-based line number (count of newlines strictly before its offset, plus
one) and the offset itself; no later violation is reported.  `>` is not
treated as a closing delimiter. -/
theorem c6_theorem (text rest : List Char) (i : Nat) (c : Char)
    (h : c = ')' ∨ c = rbrace ∨ c = ']') :
    checkBalanceLoop text (c :: rest) i [] =
      .unmatchedClosing c ((text.take i).count '\n' + 1) i := by
  have hop : ¬(c = '(' ∨ c = lbrace ∨ c = '[') := by
    rcases h with h | h | h <;> subst h <;> decide
  simp only [checkBalanceLoop, lineIndex]
  rw [if_neg hop, if_pos h]

/-- Claim C6, witness: `")"` scanned from the start reports the
unmatched `)` at line 1, offset 0. -/
theorem c6_witness :
    checkBalanceLoop [')'] [')'] 0 [] = .unmatchedClosing ')' 1 0 :=
  c6_theorem [')'] [] 0 ')' (Or.inl rfl)

/-- Claim C7: scanning the empty text returns `Balanced`. -/
theorem c7_theorem : check_balance [] = .balanced := rfl

/-- Claim C8: while in string mode, processing position `i` masks the
character (emits a single space) and advances `i` by one, and the
classifier leaves string mode exactly when the character equals the
recorded string delimiter and the raw character at `i - 1` is not a
backslash.  (`1 ≤ i`, which always holds when string mode is reachable,
makes the Python lookbehind `text[i-1]` the plain read at `i - 1`; see
claim C10.) -/
theorem c8_theorem (text : List Char) (i : Nat) (st : RcsState)
    (hs : st.in_string = true) (hi : 1 ≤ i) :
    (rcsStep text i st).1 = [' '] ∧
      (rcsStep text i st).2.2 = i + 1 ∧
      ((rcsStep text i st).2.1.in_string = false ↔
        (some (text.getD i ' ') = st.string_char ∧
          text.getD (i - 1) ' ' ≠ '\\')) := by
  have hpy : pyGet text ((i : Int) - 1) = text.getD (i - 1) ' ' := by
    unfold pyGet
    rw [if_neg (by omega)]
    congr 1
    omega
  unfold rcsStep
  dsimp only
  rw [if_pos hs]
  refine ⟨rfl, rfl, ?_⟩
  rw [hpy]
  by_cases h1 : some (text.getD i ' ') = st.string_char
  · rw [if_pos h1]
    by_cases h2 : text.getD (i - 1) ' ' ≠ '\\'
    · rw [if_pos h2]
      exact iff_of_true rfl ⟨h1, h2⟩
    · rw [if_neg h2]
      exact iff_of_false (by simp [hs]) (fun hab => h2 hab.2)
  · rw [if_neg h1]
    exact iff_of_false (by simp [hs]) (fun hab => h1 hab.1)

/-- Claim C8, witness: at offset 2 of `"\"x\""`, in string mode with
delimiter `"`, the step masks the closing quote, advances to 3, and
leaves string mode (the preceding character `x` is not a backslash). -/
theorem c8_witness :
    (rcsStep [dquote, 'x', dquote] 2 ⟨true, some dquote, false, false⟩).1 =
        [' '] ∧
      (rcsStep [dquote, 'x', dquote] 2
            ⟨true, some dquote, false, false⟩).2.2 = 3 ∧
      ((rcsStep [dquote, 'x', dquote] 2
            ⟨true, some dquote, false, false⟩).2.1.in_string = false ↔
        (some ([dquote, 'x', dquote].getD 2 ' ') = some dquote ∧
          [dquote, 'x', dquote].getD 1 ' ' ≠ '\\')) :=
  c8_theorem [dquote, 'x', dquote] 2 ⟨true, some dquote, false, false⟩ rfl
    (by omega)

/-- Claim C9: the scan is a deterministic pure function of its input —
equal inputs yield equal diagnostics (and equal masked texts). -/
theorem c9_theorem (t1 t2 : List Char) (h : t1 = t2) :
    check_balance t1 = check_balance t2 ∧
      remove_comments_and_strings t1 = remove_comments_and_strings t2 := by
  subst h
  exact ⟨rfl, rfl⟩

/-- Claim C9, witness: two runs on `"()"` agree. -/
theorem c9_witness :
    check_balance ['(', ')'] = check_balance ['(', ')'] ∧
      remove_comments_and_strings ['(', ')'] =
        remove_comments_and_strings ['(', ')'] :=
  c9_theorem ['(', ')'] ['(', ')'] rfl

/-- Claim C10: the string-mode lookbehind `text[i-1]` never wraps around
to the end of the text.  String mode only holds after an opening quote
was consumed at a strictly smaller index, so `i ≥ 1` whenever the
lookbehind is consulted; consequently `remove_comments_and_strings`
(whose embedding `pyGet` gives Python's wrapping semantics to `text[-1]`)
coincides on every input with the variant reading plain offset `i - 1` —
and, being a total function of the input, it terminates with a string on
every input. -/
theorem c10_theorem (text : List Char) :
    remove_comments_and_strings text = remove_comments_and_strings_noWrap text := by
  unfold remove_comments_and_strings remove_comments_and_strings_noWrap
  exact rcsLoop_eq_safe text text.length 0 _ (fun h => by simp at h)
